import Mathlib

/-!
Verification of the DummyJSON Products API test suite: a shallow embedding
of the custom request helper (cypress/support/e2e.ts) and of the assertion
logic of each scenario in cypress/e2e/api/products.spec.ts, together with
theorems settling the documented contracts against that embedding.
-/

namespace DummyJsonSuite

/-- Parsed JSON values, as the response bodies the suite inspects. -/
inductive Json where
  | null
  | bool (b : Bool)
  | num (n : Int)
  | str (s : String)
  | arr (elems : List Json)
  | obj (fields : List (String × Json))

/-- Property read `j.k` on a parsed JSON value: a key of an object, and
`undefined` (`none`) on a missing key or a non-object. -/
def Json.getField : Json → String → Option Json
  | .obj fs, k => List.lookup k fs
  | _, _ => none

/-- A response descriptor: the status code and the parsed body, exactly what
the assertions of the suite read from a `cy.request` resolution. -/
structure Response where
  status : Nat
  body : Json

/-- The option object handed to `cy.request` by the helper. -/
structure RequestOptions where
  method : String
  url : String
  body : Option Json
  failOnStatusCode : Bool
  headers : List (String × String)

/-- Whether a status code is a success (2xx) code. -/
def is2xx (s : Nat) : Bool := decide (200 ≤ s ∧ s < 300)

/-- `cy.request` against an abstract transport: with `failOnStatusCode` set,
a non-2xx status is an error; with it cleared, every response resolves. -/
def cyRequest (transport : RequestOptions → Response) (opts : RequestOptions) :
    Except String Response :=
  let res := transport opts
  if opts.failOnStatusCode && !is2xx res.status then
    .error "request failed on status code"
  else
    .ok res

/-- The option object the custom `api` command builds:
`cy.request with method, url, body, failOnStatusCode: false and a
Content-Type: application/json header` (cypress/support/e2e.ts). -/
def apiCommand (method url : String) (body : Option Json) : RequestOptions :=
  { method := method, url := url, body := body, failOnStatusCode := false,
    headers := [("Content-Type", "application/json")] }

/-- The custom `api` command: issue the built request over the transport. -/
def api (transport : RequestOptions → Response) (method url : String)
    (body : Option Json) : Except String Response :=
  cyRequest transport (apiCommand method url body)

/-- C1: For every HTTP method string, url and optional body, the `api` helper
issues its request with `failOnStatusCode` disabled and a
Content-Type: application/json header, and resolves normally with the
descriptor carrying the transport response, whatever its status code:
the helper itself never errors on an HTTP status. -/
theorem api_returns_descriptor_for_every_status
    (transport : RequestOptions → Response) (method url : String)
    (body : Option Json) :
    (apiCommand method url body).failOnStatusCode = false ∧
    (apiCommand method url body).headers = [("Content-Type", "application/json")] ∧
    api transport method url body = .ok (transport (apiCommand method url body)) := by
  refine ⟨rfl, rfl, ?_⟩
  simp [api, cyRequest, apiCommand]

/-! Assertion vocabulary: each definition mirrors one chai assertion form the
suite applies to a response. -/

/-- Chai `expect(res.status).to.eq(n)`. -/
def statusIs (res : Response) (n : Nat) : Bool := res.status == n

/-- Chai `expect(v).to.have.property(k)` on a parsed JSON value. -/
def hasProp (j : Json) (k : String) : Bool := (j.getField k).isSome

/-- Chai `expect(v.k).to.eq(n)` against a numeric literal (strict equality). -/
def numFieldIs (j : Json) (k : String) (n : Int) : Bool :=
  match j.getField k with
  | some (.num m) => m == n
  | _ => false

/-- Chai `expect(v.k).to.eq(s)` against a string literal (strict equality). -/
def strFieldIs (j : Json) (k : String) (s : String) : Bool :=
  match j.getField k with
  | some (.str t) => t == s
  | _ => false

/-- Chai `expect(v.k).to.be.greaterThan(0)`: a number strictly above zero. -/
def numFieldPos (j : Json) (k : String) : Bool :=
  match j.getField k with
  | some (.num m) => decide (0 < m)
  | _ => false

/-- The suite reads `xs.length` of a field it treats as a `Product` array:
defined when the field holds an array, an assertion error otherwise. -/
def arrayLengthIs (j : Option Json) (n : Nat) : Bool :=
  match j with
  | some (.arr xs) => xs.length == n
  | _ => false

/-- The own keys of a JSON object, `undefined` for any other value. -/
def keysOf : Json → Option (List String)
  | .obj fs => some (fs.map Prod.fst)
  | _ => none

/-- Chai `expect(v).to.have.keys(ks)`: as many own keys as listed, and every
listed key among them. -/
def hasExactKeys (j : Json) (ks : List String) : Bool :=
  match keysOf j with
  | some actual => actual.length == ks.length && ks.all (fun k => actual.contains k)
  | none => false

/-- Holding exactly the listed top-level keys, stated structurally: the value
is an object whose key list is a permutation of the listed keys. -/
def HasExactlyKeys (j : Json) (ks : List String) : Prop :=
  ∃ fs, j = Json.obj fs ∧ (fs.map Prod.fst).Perm ks

theorem statusIs_iff (res : Response) (n : Nat) :
    statusIs res n = true ↔ res.status = n := by
  simp [statusIs]

theorem hasProp_iff (j : Json) (k : String) :
    hasProp j k = true ↔ ∃ v, j.getField k = some v := by
  simp [hasProp, Option.isSome_iff_exists]

theorem hasProp_false_iff (j : Json) (k : String) :
    hasProp j k = false ↔ j.getField k = none := by
  unfold hasProp
  cases j.getField k <;> simp

theorem numFieldIs_iff (j : Json) (k : String) (n : Int) :
    numFieldIs j k n = true ↔ j.getField k = some (Json.num n) := by
  unfold numFieldIs
  cases h : j.getField k with
  | none => simp
  | some v => cases v <;> simp

theorem strFieldIs_iff (j : Json) (k : String) (s : String) :
    strFieldIs j k s = true ↔ j.getField k = some (Json.str s) := by
  unfold strFieldIs
  cases h : j.getField k with
  | none => simp
  | some v => cases v <;> simp

theorem numFieldPos_iff (j : Json) (k : String) :
    numFieldPos j k = true ↔ ∃ m, j.getField k = some (Json.num m) ∧ 0 < m := by
  unfold numFieldPos
  cases h : j.getField k with
  | none => simp
  | some v => cases v <;> simp

theorem arrayLengthIs_iff (j : Option Json) (n : Nat) :
    arrayLengthIs j n = true ↔ ∃ xs, j = some (Json.arr xs) ∧ xs.length = n := by
  unfold arrayLengthIs
  cases j with
  | none => simp
  | some v => cases v <;> simp

theorem keyCheck_iff (actual ks : List String) (hnd : ks.Nodup) :
    (actual.length == ks.length && ks.all (fun k => actual.contains k)) = true ↔
      actual.Perm ks := by
  rw [Bool.and_eq_true, beq_iff_eq, List.all_eq_true]
  constructor
  · rintro ⟨hlen, hsub⟩
    have hsp : ks.Subperm actual :=
      List.Nodup.subperm hnd (fun k hk => List.elem_iff.mp (hsub k hk))
    exact (List.Subperm.perm_of_length_le hsp (le_of_eq hlen)).symm
  · intro hperm
    exact ⟨hperm.length_eq, fun k hk => List.elem_iff.mpr (hperm.mem_iff.mpr hk)⟩

theorem hasExactKeys_iff (j : Json) (ks : List String) (hnd : ks.Nodup) :
    hasExactKeys j ks = true ↔ HasExactlyKeys j ks := by
  unfold hasExactKeys HasExactlyKeys keysOf
  cases j
  case obj fs =>
    rw [keyCheck_iff (fs.map Prod.fst) ks hnd]
    constructor
    · intro hperm
      exact ⟨fs, rfl, hperm⟩
    · rintro ⟨gs, hgs, hperm⟩
      cases hgs
      exact hperm
  all_goals
    constructor
    · intro h
      exact absurd h (by simp)
    · rintro ⟨gs, hgs, _⟩
      cases hgs

/-! Scenario: GET /products returns 30 items by default (lines 24 to 31). -/

/-- Assertions of the default-listing scenario: status 200, 30 products, and
exactly the four top-level keys products, total, skip, limit. -/
def defaultListingTest (res : Response) : Bool :=
  statusIs res 200 &&
  arrayLengthIs (res.body.getField "products") 30 &&
  hasExactKeys res.body ["products", "total", "skip", "limit"]

/-- The default-listing contract as the specification words it. -/
def DefaultListingSpec (res : Response) : Prop :=
  res.status = 200 ∧
  (∃ ps, res.body.getField "products" = some (Json.arr ps) ∧ ps.length = 30) ∧
  HasExactlyKeys res.body ["products", "total", "skip", "limit"]

/-- C2: the default-listing scenario passes exactly when the response has
status 200, its products array has length exactly 30, and the page object
has exactly the four top-level keys products, total, skip and limit. -/
theorem default_listing_characterization (res : Response) :
    defaultListingTest res = true ↔ DefaultListingSpec res := by
  unfold defaultListingTest DefaultListingSpec
  rw [Bool.and_eq_true, Bool.and_eq_true, statusIs_iff, arrayLengthIs_iff,
    hasExactKeys_iff _ _ (by decide)]
  tauto

/-! Scenario: GET /products honors limit and skip and supports select fields
(lines 36 to 49). -/

/-- Assertions of the pagination scenario: status 200, echoed limit and skip
of 10, ten products, and per product a title and a price but no description. -/
def paginationTest (res : Response) : Bool :=
  statusIs res 200 &&
  numFieldIs res.body "limit" 10 &&
  numFieldIs res.body "skip" 10 &&
  (match res.body.getField "products" with
   | some (.arr ps) =>
       ps.length == 10 &&
       ps.all (fun p => hasProp p "title" && hasProp p "price" &&
         !hasProp p "description")
   | _ => false)

/-- The pagination and field-selection contract as the specification words
it. -/
def PaginationSpec (res : Response) : Prop :=
  res.status = 200 ∧
  res.body.getField "limit" = some (Json.num 10) ∧
  res.body.getField "skip" = some (Json.num 10) ∧
  ∃ ps, res.body.getField "products" = some (Json.arr ps) ∧ ps.length = 10 ∧
    ∀ p ∈ ps, (∃ v, p.getField "title" = some v) ∧
      (∃ v, p.getField "price" = some v) ∧ p.getField "description" = none

theorem productChecks_iff (p : Json) :
    (hasProp p "title" && hasProp p "price" && !hasProp p "description") = true ↔
      (∃ v, p.getField "title" = some v) ∧
      (∃ v, p.getField "price" = some v) ∧ p.getField "description" = none := by
  rw [Bool.and_eq_true, Bool.and_eq_true, Bool.not_eq_true']
  rw [hasProp_iff, hasProp_iff, hasProp_false_iff]
  tauto

/-- C3: the pagination and field-selection scenario passes exactly when the
status is 200, the echoed limit is 10, the echoed skip is 10, the products
array has length 10, and every returned product has a title field and a
price field and no description field. -/
theorem pagination_select_characterization (res : Response) :
    paginationTest res = true ↔ PaginationSpec res := by
  unfold paginationTest PaginationSpec
  rw [Bool.and_eq_true, Bool.and_eq_true, Bool.and_eq_true,
    statusIs_iff, numFieldIs_iff, numFieldIs_iff]
  cases h : res.body.getField "products" with
  | none =>
    simp
  | some v =>
    cases v <;> simp
    rename_i ps
    simp only [hasProp_iff, hasProp_false_iff]
    aesop

/-! Scenario: Negative: GET non-existing product returns 404 (lines 179 to
188). -/

/-- Assertions of the not-found scenario: a status in 404 or 200; on 404 a
message field, otherwise no id field equal to 999999. -/
def notFoundTest (res : Response) : Bool :=
  ([404, 200].contains res.status) &&
  (if res.status == 404 then hasProp res.body "message"
   else !(numFieldIs res.body "id" 999999))

/-- The not-found contract as the specification words it. -/
def NotFoundSpec (res : Response) : Prop :=
  (res.status = 404 ∨ res.status = 200) ∧
  (res.status = 404 → ∃ v, res.body.getField "message" = some v) ∧
  (res.status = 200 → res.body.getField "id" ≠ some (Json.num 999999))

/-- C5: the not-found scenario passes exactly when the status is 404 or 200,
with a message field in the body when it is 404 and with the body id, if
any, different from 999999 when it is 200. -/
theorem not_found_characterization (res : Response) :
    notFoundTest res = true ↔ NotFoundSpec res := by
  unfold notFoundTest NotFoundSpec
  rw [Bool.and_eq_true]
  by_cases h4 : res.status = 404
  · rw [if_pos (by simp [h4]), hasProp_iff]
    simp [h4]
  · by_cases h2 : res.status = 200
    · rw [if_neg (by simp [h4]), Bool.not_eq_true', Bool.eq_false_iff,
        Ne, numFieldIs_iff]
      simp [h2, h4]
    · constructor
      · rintro ⟨hmem, _⟩
        exact absurd (by simpa using hmem) (by simp [h4, h2])
      · rintro ⟨hmem, _, _⟩
        exact absurd hmem (by simp [h4, h2])

/-! Scenario: PUT /products/:id simulates update (lines 146 to 152). -/

/-- The replacement record the PUT scenario submits. -/
def putRequestBody : Json := Json.obj [("title", Json.str "iPhone Galaxy +1")]

/-- Assertions of the simulated-full-update scenario: status 200 and the
returned title equal to the submitted replacement title. -/
def putUpdateTest (res : Response) : Bool :=
  statusIs res 200 && strFieldIs res.body "title" "iPhone Galaxy +1"

/-- C7: the simulated-full-update scenario accepts status 200 (the strict
variant of the tolerated 200/201 family) and passes exactly when, besides
that status, the returned record carries the submitted replacement title. -/
theorem put_update_characterization (res : Response) :
    putUpdateTest res = true ↔
      res.status = 200 ∧
      res.body.getField "title" = putRequestBody.getField "title" := by
  unfold putUpdateTest
  rw [Bool.and_eq_true, statusIs_iff, strFieldIs_iff]
  have hb : putRequestBody.getField "title" = some (Json.str "iPhone Galaxy +1") := rfl
  rw [hb]

/-! Scenario: POST /products/add simulates creation and returns new id
(lines 134 to 141). -/

/-- The record the simulated-create scenario submits. -/
def postAddBody : Json :=
  Json.obj [("title", Json.str "BMW Pencil"), ("price", Json.num 5)]

/-- Assertions of the simulated-create scenario: a status in 200 or 201, the
returned title equal to the submitted one, and an id field. -/
def postAddTest (res : Response) : Bool :=
  ([200, 201].contains res.status) &&
  strFieldIs res.body "title" "BMW Pencil" &&
  hasProp res.body "id"

/-- C8: the simulated-create scenario passes exactly when the status is 200
or 201, the returned title equals the submitted title BMW Pencil (round-trip
field echo), and the returned record has an id field. -/
theorem post_add_roundtrip (res : Response) :
    postAddTest res = true ↔
      (res.status = 200 ∨ res.status = 201) ∧
      res.body.getField "title" = postAddBody.getField "title" ∧
      (∃ v, res.body.getField "id" = some v) := by
  unfold postAddTest
  rw [Bool.and_eq_true, Bool.and_eq_true, strFieldIs_iff, hasProp_iff]
  have hb : postAddBody.getField "title" = some (Json.str "BMW Pencil") := rfl
  rw [hb]
  constructor
  · rintro ⟨⟨hmem, ht⟩, hid⟩
    exact ⟨by simpa using hmem, ht, hid⟩
  · rintro ⟨hst, ht, hid⟩
    exact ⟨⟨by simpa using hst, ht⟩, hid⟩

/-! Scenario: GET /products supports sorting by title asc (lines 54 to 77),
and the title handling it shares with the search scenario (lines 95 to
103). -/

/-- Coercion `v or the empty string` that the title-processing code applies
before calling string methods: a falsy value becomes the empty string, a
string stays itself, and a truthy non-string value has no string methods,
so the scenario code errors there (`none`). -/
def jsOrEmptyStr : Option Json → Option String
  | none => some ""
  | some .null => some ""
  | some (.bool false) => some ""
  | some (.bool true) => none
  | some (.num n) => if n = 0 then some "" else none
  | some (.str s) => some s
  | some (.arr _) => none
  | some (.obj _) => none

/-- One step of collapsing whitespace runs: the flag says whether the
previous character was part of a run already replaced by one space. -/
def collapseWsGo : Bool → List Char → List Char
  | _, [] => []
  | prevWs, c :: cs =>
    if c.isWhitespace then
      if prevWs then collapseWsGo true cs
      else ' ' :: collapseWsGo true cs
    else c :: collapseWsGo false cs

/-- The regex replacement of every whitespace run by a single space. -/
def collapseWs (s : String) : String := ⟨collapseWsGo false s.data⟩

/-- The `trim` method of JavaScript strings: drop the whitespace at both
ends. -/
def jsTrim (s : String) : String :=
  ⟨((s.data.dropWhile Char.isWhitespace).reverse.dropWhile
      Char.isWhitespace).reverse⟩

/-- The `toLowerCase` method of JavaScript strings, character by
character. -/
def jsToLower (s : String) : String := ⟨s.data.map Char.toLower⟩

/-- The `normalize` helper of the sorting scenario: coerce the raw title with
the or-empty-string idiom, then trim, collapse whitespace runs, lowercase
and apply the NFKD Unicode normalization (kept abstract as `nfkd`). -/
def normalize (nfkd : String → String) (title : Option Json) : Option String :=
  (jsOrEmptyStr title).map fun s => nfkd (jsToLower (collapseWs (jsTrim s)))

/-- The normalized titles of a product list; `none` when one product makes
the scenario code error. -/
def sortedTitles (nfkd : String → String) (ps : List Json) : Option (List String) :=
  ps.mapM fun p => normalize nfkd (p.getField "title")

/-- The loop counting adjacent pairs the comparison puts in the wrong order
(`cmp` keeps `localeCompare` abstract). -/
def countBreaks (cmp : String → String → Int) : List String → Nat
  | a :: b :: rest => (if 0 < cmp a b then 1 else 0) + countBreaks cmp (b :: rest)
  | _ => 0

/-- Assertions of the sorting scenario: status 200, then at most two order
breaks over the normalized titles. -/
def sortingTest (nfkd : String → String) (cmp : String → String → Int)
    (res : Response) : Bool :=
  statusIs res 200 &&
  (match res.body.getField "products" with
   | some (.arr ps) =>
     match sortedTitles nfkd ps with
     | some ts => decide (countBreaks cmp ts ≤ 2)
     | none => false
   | _ => false)

/-- At most two adjacent inversions over the normalized returned titles: the
sorting tolerance exactly as the claim words it, with no condition on the
status code. -/
def SortedWithinTolerance (nfkd : String → String) (cmp : String → String → Int)
    (res : Response) : Prop :=
  ∃ ps ts, res.body.getField "products" = some (Json.arr ps) ∧
    sortedTitles nfkd ps = some ts ∧ countBreaks cmp ts ≤ 2

/-- C4 counterexample: a response with status 500 and an empty products array
satisfies the inversion tolerance yet fails the scenario, so passing is not
equivalent to the tolerance alone. -/
theorem sorting_tolerance_counterexample :
    ¬ (sortingTest (fun s => s) (fun _ _ => 0)
         ⟨500, Json.obj [("products", Json.arr [])]⟩ = true ↔
       SortedWithinTolerance (fun s => s) (fun _ _ => 0)
         ⟨500, Json.obj [("products", Json.arr [])]⟩) := by
  intro h
  have hfail : sortingTest (fun s => s) (fun _ _ => 0)
      ⟨500, Json.obj [("products", Json.arr [])]⟩ = true :=
    h.mpr ⟨[], [], rfl, rfl, by decide⟩
  exact absurd hfail (by decide)

/-- C4 amended: the sorting scenario passes exactly when the status is 200
and the count of adjacent inversions over the normalized returned titles is
at most 2. -/
theorem sorting_requires_status_and_tolerance (nfkd : String → String)
    (cmp : String → String → Int) (res : Response) :
    sortingTest nfkd cmp res = true ↔
      res.status = 200 ∧ SortedWithinTolerance nfkd cmp res := by
  unfold sortingTest SortedWithinTolerance
  rw [Bool.and_eq_true, statusIs_iff]
  cases h : res.body.getField "products" with
  | none => simp
  | some v =>
    cases v <;> simp
    rename_i ps
    cases ht : sortedTitles nfkd ps with
    | none => simp
    | some ts => simp

/-- Whether the second character list starts with the first. -/
def startsWithChars : List Char → List Char → Bool
  | [], _ => true
  | _ :: _, [] => false
  | p :: ps, c :: cs => p == c && startsWithChars ps cs

/-- Whether the pattern occurs somewhere in the character list. -/
def includesChars (pat : List Char) : List Char → Bool
  | [] => startsWithChars pat []
  | c :: cs => startsWithChars pat (c :: cs) || includesChars pat cs

/-- The `includes` method of JavaScript strings: substring containment. -/
def strIncludes (s pat : String) : Bool := includesChars pat.data s.data

/-- The predicate of the search scenario on one product: the title, coerced
with the or-empty-string idiom, lowercased, contains the term phone. -/
def searchMatches (p : Json) : Option Bool :=
  (jsOrEmptyStr (p.getField "title")).map fun s =>
    strIncludes (jsToLower s) "phone"

/-- C10: on a product whose title is missing, null or the empty string, the
title processing shared by the sorting and search scenarios is total: the
or-empty-string coercion yields the empty string, the normalized title is
the one of the empty-string title, and the search predicate yields false. -/
theorem titleless_title_handling (nfkd : String → String) (p : Json)
    (h : p.getField "title" = none ∨ p.getField "title" = some Json.null ∨
         p.getField "title" = some (Json.str "")) :
    jsOrEmptyStr (p.getField "title") = some "" ∧
    normalize nfkd (p.getField "title") = normalize nfkd (some (Json.str "")) ∧
    searchMatches p = some false := by
  have hco : jsOrEmptyStr (p.getField "title") = some "" := by
    rcases h with h | h | h <;> rw [h] <;> rfl
  refine ⟨hco, ?_, ?_⟩
  · unfold normalize
    rw [hco]
    rfl
  · unfold searchMatches
    rw [hco]
    decide

/-- C10 witness: a product record with no fields at all is handled safely at
the identity in place of NFKD. -/
theorem titleless_title_handling_witness :
    jsOrEmptyStr ((Json.obj []).getField "title") = some "" ∧
    normalize (fun s => s) ((Json.obj []).getField "title") =
      normalize (fun s => s) (some (Json.str "")) ∧
    searchMatches (Json.obj []) = some false :=
  titleless_title_handling (fun s => s) (Json.obj []) (Or.inl rfl)

/-! Scenario: GET categories endpoints return arrays and valid category fetch
works (lines 108 to 129). -/

/-- Chai `expect(v).to.be.an(array).that.is.not.empty`. -/
def isNonEmptyArray (j : Json) : Bool :=
  match j with
  | .arr xs => !xs.isEmpty
  | _ => false

/-- The assertions run on each of the two category listing endpoints: status
200 and a non-empty array body. -/
def arrayEndpointTest (r : Response) : Bool :=
  statusIs r 200 && isNonEmptyArray r.body

/-- The assertions run on the products-by-category response: status 200, a
total above zero, at least one product, and every product category equal to
the requested one. -/
def productsByCategoryTest (cat : String) (r : Response) : Bool :=
  statusIs r 200 &&
  numFieldPos r.body "total" &&
  (match r.body.getField "products" with
   | some (.arr ps) =>
       decide (0 < ps.length) && ps.all (fun p => strFieldIs p "category" cat)
   | _ => false)

/-- The whole category-enumeration scenario: the three responses, in the
order the scenario requests them, each pass their assertions. -/
def categoryScenarioTest (r1 r2 r3 : Response) : Bool :=
  arrayEndpointTest r1 && arrayEndpointTest r2 &&
  productsByCategoryTest "smartphones" r3

/-- A non-empty array whose elements are all strings, as the claim describes
the category list body. -/
def NonEmptyStringArray (j : Json) : Prop :=
  ∃ xs, j = Json.arr xs ∧ xs ≠ [] ∧ ∀ x ∈ xs, ∃ s, x = Json.str s

/-- What the category-enumeration scenario actually forces: non-empty array
bodies on the two listing endpoints (with no condition on their elements),
and a positive total, a non-empty products array and the requested category
on every product for the filtered fetch. -/
def CategoryEnumSpec (r1 r2 r3 : Response) : Prop :=
  (∃ xs, r1.body = Json.arr xs ∧ xs ≠ []) ∧
  (∃ ys, r2.body = Json.arr ys ∧ ys ≠ []) ∧
  (∃ t, r3.body.getField "total" = some (Json.num t) ∧ 0 < t) ∧
  (∃ ps, r3.body.getField "products" = some (Json.arr ps) ∧ ps ≠ [] ∧
    ∀ p ∈ ps, p.getField "category" = some (Json.str "smartphones"))

/-- C6 counterexample: the scenario passes on a category list holding the
number 1 instead of strings, so passing does not force an array of
strings. -/
theorem category_enum_counterexample :
    ¬ (categoryScenarioTest ⟨200, Json.arr [Json.num 1]⟩
        ⟨200, Json.arr [Json.num 1]⟩
        ⟨200, Json.obj [("total", Json.num 3), ("products",
          Json.arr [Json.obj [("category", Json.str "smartphones")]])]⟩ = true →
       NonEmptyStringArray (Json.arr [Json.num 1])) := by
  intro h
  obtain ⟨xs, hxs, -, hall⟩ := h (by decide)
  injection hxs with hxs
  subst hxs
  obtain ⟨s, hs⟩ := hall (Json.num 1) (by simp)
  exact Json.noConfusion hs

/-- C6 amended: the category-enumeration scenario passes only when the two
category listing endpoints return non-empty arrays and the filtered fetch
returns a positive total, at least one product, and the requested category
on every returned product. -/
theorem category_enum_only_if (r1 r2 r3 : Response)
    (h : categoryScenarioTest r1 r2 r3 = true) :
    CategoryEnumSpec r1 r2 r3 := by
  unfold categoryScenarioTest arrayEndpointTest productsByCategoryTest at h
  simp only [Bool.and_eq_true] at h
  obtain ⟨⟨⟨hs1, h1⟩, hs2, h2⟩, ⟨hs3, ht⟩, hp⟩ := h
  unfold CategoryEnumSpec
  refine ⟨?_, ?_, (numFieldPos_iff _ _).mp ht, ?_⟩
  · revert h1
    unfold isNonEmptyArray
    cases hb : r1.body <;> simp
  · revert h2
    unfold isNonEmptyArray
    cases hb : r2.body <;> simp
  · revert hp
    cases hq : r3.body.getField "products" with
    | none => simp
    | some v =>
      cases v <;> simp
      rename_i ps
      intro hlen hall
      refine ⟨List.ne_nil_of_length_pos hlen, fun p hp => ?_⟩
      exact (strFieldIs_iff _ _ _).mp (hall p hp)

/-- C6 witness: a well-formed triple of responses that passes the scenario
and therefore satisfies the forced contract. -/
theorem category_enum_only_if_witness :
    CategoryEnumSpec ⟨200, Json.arr [Json.str "beauty"]⟩
      ⟨200, Json.arr [Json.obj [("slug", Json.str "smartphones"),
        ("name", Json.str "Smartphones"), ("url", Json.str "url")]]⟩
      ⟨200, Json.obj [("total", Json.num 3), ("products",
        Json.arr [Json.obj [("category", Json.str "smartphones")]])]⟩ :=
  category_enum_only_if _ _ _ (by decide)

/-! The call sites of the custom api command across the whole scenario suite
(lines 25, 37, 55, 83, 96, 109, 115, 122, 135, 147, 158, 169 and 180). -/

/-- Every invocation of the api command the suite makes, in file order:
method, path, and the optional request body. -/
def suiteCalls : List (String × String × Option Json) :=
  [ ("GET", "/products", none),
    ("GET", "/products?limit=10&skip=10&select=title,price", none),
    ("GET", "/products?sortBy=title&order=asc&limit=20&select=title", none),
    ("GET", "/products/1", none),
    ("GET", "/products/search?q=phone", none),
    ("GET", "/products/categories", none),
    ("GET", "/products/category-list", none),
    ("GET", "/products/category/smartphones?limit=10", none),
    ("POST", "/products/add", some postAddBody),
    ("PUT", "/products/1", some putRequestBody),
    ("PATCH", "/products/1", some (Json.obj [("price", Json.num 999)])),
    ("DELETE", "/products/1", none),
    ("GET", "/products/999999", none) ]

/-- The mutating methods of the suite. -/
def isMutating (m : String) : Bool := m == "POST" || m == "PUT" || m == "PATCH"

/-- A non-empty relative URL fragment: some characters, and no absolute
http or https scheme in front. -/
def relativeFragment (u : String) : Bool :=
  !u.data.isEmpty &&
  !startsWithChars "http://".data u.data &&
  !startsWithChars "https://".data u.data

/-- The invariant claimed of one call: a non-empty relative path, a body only
on a mutating method, and no body on GET or DELETE. -/
def callInvariant (c : String × String × Option Json) : Bool :=
  relativeFragment c.2.1 &&
  (c.2.2.isNone || isMutating c.1) &&
  (!(c.1 == "GET" || c.1 == "DELETE") || c.2.2.isNone)

/-- C9: every invocation of the api helper in the scenario suite uses a
non-empty relative URL fragment, passes a body only with a mutating method
(POST, PUT or PATCH), and passes no body on any GET or DELETE call. -/
theorem suite_calls_invariant : suiteCalls.all callInvariant = true := by
  decide

end DummyJsonSuite
